import Mathlib

/-!
Shallow embedding of the core components of the `python_scratch` repository:

* `Swapi` — the SWAPI resource-query client (`src/swapi.py`): input
  validation, cache-key and URL construction, a single GET with outcome
  classification, response-shape discrimination, and an in-memory cache.
  The network is passed in as an oracle `net : String → Int → HttpOutcome`
  (response as a function of the request URL and timeout), and the
  process-wide dict cache is threaded explicitly as an association list.
* `Getips` — the SSDP Roku-discovery collector (`src/getips.py`): a
  multicast send followed by a receive loop terminated by a socket
  timeout, with marker filtering and sender-address deduplication.
  Inbound reads are passed in as a list of `RecvEvent`s, and the socket
  operations performed are recorded in a trace so that resource-release
  order can be stated.

Python `Optional[int]` / `Optional[str]` truthiness (`if resource_id:`)
is modelled by `optIntTruthy` / `optStrTruthy`.
-/

namespace Swapi

/-- `SWAPIResource` enum from `src/swapi.py`. -/
inductive SWAPIResource where
  | people
  | planets
  | starships
  | vehicles
  | species
  | films
deriving DecidableEq, Repr

/-- The `.value` of each enum member. -/
def SWAPIResource.value : SWAPIResource → String
  | .people => "people"
  | .planets => "planets"
  | .starships => "starships"
  | .vehicles => "vehicles"
  | .species => "species"
  | .films => "films"

/-- JSON values, the shape of parsed response bodies and cached results. -/
inductive Json where
  | null
  | bool (b : Bool)
  | num (n : Int)
  | str (s : String)
  | arr (elems : List Json)
  | obj (fields : List (String × Json))
deriving Repr

/-- Errors a `get_swapi_data` call can raise: `ValueError` from validation,
`SWAPIError` from the network/parse path, and the unhandled
`AttributeError` that `data.get` raises when the parsed body of a
list-mode response is not a JSON object. -/
inductive FetchError where
  | valueError (msg : String)
  | swapiError (msg : String)
  | attributeError
deriving Repr

/-- Outcome of `requests.get` + `raise_for_status` + `response.json()`:
a transport timeout, an HTTP error status (from `raise_for_status`),
another `RequestException`, or a body that parses (`Except.ok`) or fails
to parse (`Except.error detail`). -/
inductive HttpOutcome where
  | timeout
  | httpError (status : Nat) (detail : String)
  | requestError (detail : String)
  | ok (parsed : Except String Json)

/-- Python truthiness of an `Optional[int]` (`if resource_id:`). -/
def optIntTruthy : Option Int → Bool
  | none => false
  | some n => n != 0

/-- Python truthiness of an `Optional[str]` (`if search:`). -/
def optStrTruthy : Option String → Bool
  | none => false
  | some s => s != ""

/-- `_validate_inputs` from `src/swapi.py`: the three `ValueError`s, in
source order. -/
def validate_inputs (resource_id : Option Int) (search : Option String)
    (page : Option Int) : Except FetchError Unit :=
  if (match resource_id with | some i => decide (i ≤ 0) | none => false) then
    .error (.valueError "resource_id must be positive")
  else if (match page with | some p => decide (p ≤ 0) | none => false) then
    .error (.valueError "page must be positive")
  else if resource_id.isSome && search.isSome then
    .error (.valueError "Cannot specify both resource_id and search")
  else
    .ok ()

/-- `_build_cache_key` from `src/swapi.py`: `"|"`-joined parts, appending
`id:`/`search:`/`page:` for the truthy parameters in that order. -/
def build_cache_key (resource_type : SWAPIResource) (resource_id : Option Int)
    (search : Option String) (page : Option Int) : String :=
  let parts : List String := [resource_type.value]
  let parts := match resource_id with
    | some i => if i != 0 then parts ++ ["id:" ++ toString i] else parts
    | none => parts
  let parts := match search with
    | some s => if s != "" then parts ++ ["search:" ++ s] else parts
    | none => parts
  let parts := match page with
    | some p => if p != 0 then parts ++ ["page:" ++ toString p] else parts
    | none => parts
  String.intercalate "|" parts

/-- `_build_url` from `src/swapi.py`. -/
def build_url (resource_type : SWAPIResource) (resource_id : Option Int)
    (search : Option String) (page : Option Int) : String :=
  let base_url := "https://swapi.dev/api"
  let resource_path := resource_type.value
  match resource_id with
  | some i =>
    if i != 0 then
      base_url ++ "/" ++ resource_path ++ "/" ++ toString i ++ "/"
    else
      buildListUrl base_url resource_path search page
  | none => buildListUrl base_url resource_path search page
where
  /-- The list/search branch of `_build_url` (reached when `resource_id`
  is falsy): optional `search=`/`page=` query parameters, in that order. -/
  buildListUrl (base_url resource_path : String) (search : Option String)
      (page : Option Int) : String :=
    let url := base_url ++ "/" ++ resource_path ++ "/"
    let params : List String := match search with
      | some s => if s != "" then ["search=" ++ s] else []
      | none => []
    let params := params ++ (match page with
      | some p => if p != 0 then ["page=" ++ toString p] else []
      | none => [])
    if params ≠ [] then url ++ "?" ++ String.intercalate "&" params else url

/-- The process-wide `_cache` dict, as an association list; insertion
prepends, so lookup sees the latest binding for a key (dict overwrite). -/
def Cache := List (String × Json)

def Cache.empty : Cache := []

def Cache.lookup (c : Cache) (k : String) : Option Json :=
  List.lookup k c

def Cache.insert (c : Cache) (k : String) (v : Json) : Cache :=
  (k, v) :: c

/-- Python `data.get('results', [])` on a JSON object's field list. -/
def jsonGet (fields : List (String × Json)) (key : String) (dflt : Json) : Json :=
  match List.lookup key fields with
  | some v => v
  | none => dflt

/-- What one `get_swapi_data` call produced: the returned value or raised
error, the cache afterwards, and whether the network was consulted. -/
structure FetchResult where
  outcome : Except FetchError Json
  cache : Cache
  networkCalled : Bool

/-- `get_swapi_data` from `src/swapi.py`. `resolve_urls` is accepted and
unused, as in the source. `net url timeout` is what the single
`requests.get(url, timeout=timeout)` (plus `raise_for_status` and
`.json()`) did. -/
def get_swapi_data (resource_type : SWAPIResource) (resource_id : Option Int)
    (search : Option String) (page : Option Int) (resolve_urls : Bool)
    (use_cache : Bool) (timeout : Int) (net : String → Int → HttpOutcome)
    (cache : Cache) : FetchResult :=
  match validate_inputs resource_id search page with
  | .error e => ⟨.error e, cache, false⟩
  | .ok _ =>
    let cache_key := build_cache_key resource_type resource_id search page
    match (if use_cache then cache.lookup cache_key else none) with
    | some cached => ⟨.ok cached, cache, false⟩
    | none =>
      let url := build_url resource_type resource_id search page
      match net url timeout with
      | .timeout => ⟨.error (.swapiError "Request timeout"), cache, true⟩
      | .httpError status detail =>
        if status == 404 then
          ⟨.error (.swapiError "Resource not found"), cache, true⟩
        else
          ⟨.error (.swapiError ("Server error: " ++ detail)), cache, true⟩
      | .requestError detail =>
        ⟨.error (.swapiError ("Network error: " ++ detail)), cache, true⟩
      | .ok (.error detail) =>
        ⟨.error (.swapiError ("Failed to parse response: " ++ detail)), cache, true⟩
      | .ok (.ok data) =>
        if optIntTruthy resource_id then
          ⟨.ok data, (if use_cache then cache.insert cache_key data else cache), true⟩
        else
          match data with
          | .obj fields =>
            let result := jsonGet fields "results" (.arr [])
            ⟨.ok result, (if use_cache then cache.insert cache_key result else cache), true⟩
          | _ => ⟨.error .attributeError, cache, true⟩

end Swapi

namespace Getips

/-- The bytes of one inbound datagram, seen through `data.decode('utf-8')`:
either they decode to a text payload or the decode raises
`UnicodeDecodeError`. -/
inductive Payload where
  | text (s : String)
  | undecodable
deriving DecidableEq, Repr

/-- Outcome of one `sock.recvfrom` attempt inside the receive loop. -/
inductive RecvEvent where
  | datagram (payload : Payload) (addr : String)
  | timeoutEvt
  | exn (msg : String)
deriving DecidableEq, Repr

/-- Exceptions `discover_roku_devices` can let escape. -/
inductive PyExn where
  | unicodeDecodeError
  | socketError (msg : String)
deriving DecidableEq, Repr

/-- Operations performed on the UDP socket, in order. -/
inductive SockOp where
  | create
  | setTimeout (seconds : Nat)
  | setReuseAddr
  | sendto (msg : String)
  | recvfrom
  | close
deriving DecidableEq, Repr

/-- The SSDP M-SEARCH message sent by `discover_roku_devices`. -/
def ssdpMessage : String :=
  "M-SEARCH * HTTP/1.1\r\nHOST: 239.255.255.250:1900\r\nMAN: \"ssdp:discover\"\r\nMX: 1\r\nST: roku:ecp\r\n\r\n"

/-- Python `'roku:ecp' in response`. -/
def containsMarker (s : String) : Bool :=
  decide ("roku:ecp".toList <:+: s.toList)

/-- The `while True: recvfrom / decode / filter / dedupe-append` loop of
`discover_roku_devices`, with its enclosing `except socket.timeout: pass`.
Returns the collected addresses (on a timeout, which ends the loop
normally) or the escaping exception, together with the `recvfrom` trace.
An exhausted event list stands for a socket that would time out next. -/
def collectLoop : List RecvEvent → List String → Except PyExn (List String) × List SockOp
  | [], acc => (.ok acc, [])
  | ev :: rest, acc =>
    match ev with
    | .timeoutEvt => (.ok acc, [.recvfrom])
    | .exn msg => (.error (.socketError msg), [.recvfrom])
    | .datagram .undecodable _ => (.error .unicodeDecodeError, [.recvfrom])
    | .datagram (.text response) addr =>
      let acc2 := if containsMarker response ∧ addr ∉ acc then acc ++ [addr] else acc
      let next := collectLoop rest acc2
      (next.1, .recvfrom :: next.2)

/-- What one `discover_roku_devices` run produced: the returned address
list or escaping exception, and the ordered socket-operation trace. -/
structure DiscoverRun where
  result : Except PyExn (List String)
  trace : List SockOp
deriving Repr

/-- `discover_roku_devices` from `src/getips.py`. `sendErr` is the
exception `sock.sendto` raised, if any; `events` are the successive
`recvfrom` outcomes. The `try/finally` closes the socket on every path. -/
def discover_roku_devices (sendErr : Option PyExn) (events : List RecvEvent) :
    DiscoverRun :=
  let pre : List SockOp := [.create, .setTimeout 5, .setReuseAddr, .sendto ssdpMessage]
  match sendErr with
  | some e => ⟨.error e, pre ++ [.close]⟩
  | none =>
    let loop := collectLoop events []
    ⟨loop.1, pre ++ loop.2 ++ [.close]⟩

/-- Inbound text datagrams `(payload, sender)` as receive events. -/
def textEvents (ds : List (String × String)) : List RecvEvent :=
  ds.map fun p => .datagram (.text p.1) p.2

/-- One step of address accumulation: append the sender iff the payload
carries the marker and the sender is new. -/
def stepAddr (acc : List String) (p : String × String) : List String :=
  if containsMarker p.1 ∧ p.2 ∉ acc then acc ++ [p.2] else acc

/-- First-occurrence deduplication, the spec's "insertion order =
first-seen order": keep each address at the position of its first
occurrence in the input, dropping every later repeat. Stated from the
spec's words to characterize the order of the collected address list. -/
def firstSeen (l : List String) : List String :=
  l.foldl (fun seen addr => if addr ∈ seen then seen else seen ++ [addr]) []

end Getips

open Swapi Getips

/-! ## Spec-level request record -/

/-- `QueryRequest` from the spec's data model (§3): the per-call value
carrying the addressing fields plus `useCache`/`timeoutSeconds`. -/
structure QueryRequest where
  kind : SWAPIResource
  id : Option Int
  search : Option String
  page : Option Int
  useCache : Bool
  timeoutSeconds : Int

/-- The CacheKey derived from a request: `_build_cache_key` applied to the
four addressing fields; `useCache` and `timeoutSeconds` are not consulted. -/
def requestCacheKey (r : QueryRequest) : String :=
  build_cache_key r.kind r.id r.search r.page

/-! ## Helper lemmas about the SWAPI client -/

lemma Cache.lookup_insert (c : Cache) (k : String) (v : Json) :
    (c.insert k v).lookup k = some v := by
  simp [Cache.lookup, Cache.insert, List.lookup]

lemma fetch_validate_error {rid search page : _} {e rt ru uc t net c}
    (hv : validate_inputs rid search page = .error e) :
    get_swapi_data rt rid search page ru uc t net c = ⟨.error e, c, false⟩ := by
  unfold get_swapi_data
  rw [hv]

lemma fetch_cache_hit {rid search page : _} {rt ru t net c v}
    (hv : validate_inputs rid search page = .ok ())
    (hl : Cache.lookup c (build_cache_key rt rid search page) = some v) :
    get_swapi_data rt rid search page ru true t net c = ⟨.ok v, c, false⟩ := by
  unfold get_swapi_data
  rw [hv]
  dsimp only
  rw [hl]
  exact rfl

lemma fetch_miss_timeout {rid search page : _} {rt ru uc t net c}
    (hv : validate_inputs rid search page = .ok ())
    (hl : (if uc = true then Cache.lookup c (build_cache_key rt rid search page) else none) = none)
    (hn : net (build_url rt rid search page) t = .timeout) :
    get_swapi_data rt rid search page ru uc t net c =
      ⟨.error (.swapiError "Request timeout"), c, true⟩ := by
  unfold get_swapi_data
  rw [hv]
  dsimp only
  rw [hl, hn]

lemma fetch_miss_http {rid search page : _} {rt ru uc t net c status detail}
    (hv : validate_inputs rid search page = .ok ())
    (hl : (if uc = true then Cache.lookup c (build_cache_key rt rid search page) else none) = none)
    (hn : net (build_url rt rid search page) t = .httpError status detail) :
    get_swapi_data rt rid search page ru uc t net c =
      (if status == 404 then ⟨.error (.swapiError "Resource not found"), c, true⟩
       else ⟨.error (.swapiError ("Server error: " ++ detail)), c, true⟩) := by
  unfold get_swapi_data
  rw [hv]
  dsimp only
  rw [hl, hn]

lemma fetch_miss_reqerr {rid search page : _} {rt ru uc t net c detail}
    (hv : validate_inputs rid search page = .ok ())
    (hl : (if uc = true then Cache.lookup c (build_cache_key rt rid search page) else none) = none)
    (hn : net (build_url rt rid search page) t = .requestError detail) :
    get_swapi_data rt rid search page ru uc t net c =
      ⟨.error (.swapiError ("Network error: " ++ detail)), c, true⟩ := by
  unfold get_swapi_data
  rw [hv]
  dsimp only
  rw [hl, hn]

lemma fetch_miss_parsefail {rid search page : _} {rt ru uc t net c detail}
    (hv : validate_inputs rid search page = .ok ())
    (hl : (if uc = true then Cache.lookup c (build_cache_key rt rid search page) else none) = none)
    (hn : net (build_url rt rid search page) t = .ok (.error detail)) :
    get_swapi_data rt rid search page ru uc t net c =
      ⟨.error (.swapiError ("Failed to parse response: " ++ detail)), c, true⟩ := by
  unfold get_swapi_data
  rw [hv]
  dsimp only
  rw [hl, hn]

lemma fetch_miss_ok_id {rid search page : _} {rt ru uc t net c data}
    (hv : validate_inputs rid search page = .ok ())
    (hl : (if uc = true then Cache.lookup c (build_cache_key rt rid search page) else none) = none)
    (hn : net (build_url rt rid search page) t = .ok (.ok data))
    (hid : optIntTruthy rid = true) :
    get_swapi_data rt rid search page ru uc t net c =
      ⟨.ok data,
       (if uc = true then c.insert (build_cache_key rt rid search page) data else c), true⟩ := by
  unfold get_swapi_data
  rw [hv]
  dsimp only
  rw [hl, hn, hid]
  exact rfl

lemma fetch_miss_ok_obj {rid search page : _} {rt ru uc t net c fields}
    (hv : validate_inputs rid search page = .ok ())
    (hl : (if uc = true then Cache.lookup c (build_cache_key rt rid search page) else none) = none)
    (hn : net (build_url rt rid search page) t = .ok (.ok (.obj fields)))
    (hid : optIntTruthy rid = false) :
    get_swapi_data rt rid search page ru uc t net c =
      ⟨.ok (jsonGet fields "results" (.arr [])),
       (if uc = true then
          c.insert (build_cache_key rt rid search page) (jsonGet fields "results" (.arr []))
        else c), true⟩ := by
  unfold get_swapi_data
  rw [hv]
  dsimp only
  rw [hl, hn, hid]
  exact rfl

lemma fetch_miss_ok_nonobj {rid search page : _} {rt ru uc t net c data}
    (hv : validate_inputs rid search page = .ok ())
    (hl : (if uc = true then Cache.lookup c (build_cache_key rt rid search page) else none) = none)
    (hn : net (build_url rt rid search page) t = .ok (.ok data))
    (hid : optIntTruthy rid = false)
    (hno : ∀ fields, data ≠ .obj fields) :
    get_swapi_data rt rid search page ru uc t net c =
      ⟨.error .attributeError, c, true⟩ := by
  unfold get_swapi_data
  rw [hv]
  dsimp only
  rw [hl, hn, hid]
  cases data with
  | obj fields => exact absurd rfl (hno fields)
  | null => exact rfl
  | bool b => exact rfl
  | num n => exact rfl
  | str s => exact rfl
  | arr elems => exact rfl

lemma validate_ok_of_fetch_ok {rt rid search page ru uc t net c v}
    (h : (get_swapi_data rt rid search page ru uc t net c).outcome = .ok v) :
    validate_inputs rid search page = .ok () := by
  cases hv : validate_inputs rid search page with
  | error e =>
    rw [fetch_validate_error hv] at h
    simp at h
  | ok u => cases u; rfl

/-- After a successful call with `use_cache = true`, the returned cache
holds the returned value under the request's cache key. -/
lemma fetch_ok_cache_lookup {rt rid search page ru t net c v}
    (h : (get_swapi_data rt rid search page ru true t net c).outcome = .ok v) :
    ((get_swapi_data rt rid search page ru true t net c).cache).lookup
      (build_cache_key rt rid search page) = some v := by
  have hv := validate_ok_of_fetch_ok h
  cases hl : Cache.lookup c (build_cache_key rt rid search page) with
  | some w =>
    rw [fetch_cache_hit hv hl] at h ⊢
    simp only [Except.ok.injEq] at h
    rw [hl, h]
  | none =>
    have hl' : (if true = true then Cache.lookup c (build_cache_key rt rid search page)
        else none) = none := by simpa using hl
    cases hn : net (build_url rt rid search page) t with
    | timeout =>
      rw [fetch_miss_timeout hv hl' hn] at h
      simp at h
    | httpError status detail =>
      rw [fetch_miss_http hv hl' hn] at h
      by_cases hs : status == 404 <;> simp [hs] at h
    | requestError detail =>
      rw [fetch_miss_reqerr hv hl' hn] at h
      simp at h
    | ok parsed =>
      cases parsed with
      | error detail =>
        rw [fetch_miss_parsefail hv hl' hn] at h
        simp at h
      | ok data =>
        by_cases hid : optIntTruthy rid
        · rw [fetch_miss_ok_id hv hl' hn hid] at h ⊢
          simp only [Except.ok.injEq] at h
          rw [← h]
          simpa using Cache.lookup_insert c _ _
        · rw [Bool.not_eq_true] at hid
          cases data with
          | obj fields =>
            rw [fetch_miss_ok_obj hv hl' hn hid] at h ⊢
            simp only [Except.ok.injEq] at h
            rw [← h]
            simpa using Cache.lookup_insert c _ _
          | null =>
            rw [fetch_miss_ok_nonobj hv hl' hn hid (fun _ hf => Json.noConfusion hf)] at h
            simp at h
          | bool b =>
            rw [fetch_miss_ok_nonobj hv hl' hn hid (fun _ hf => Json.noConfusion hf)] at h
            simp at h
          | num n =>
            rw [fetch_miss_ok_nonobj hv hl' hn hid (fun _ hf => Json.noConfusion hf)] at h
            simp at h
          | str s =>
            rw [fetch_miss_ok_nonobj hv hl' hn hid (fun _ hf => Json.noConfusion hf)] at h
            simp at h
          | arr elems =>
            rw [fetch_miss_ok_nonobj hv hl' hn hid (fun _ hf => Json.noConfusion hf)] at h
            simp at h

/-! ## Claim theorems -/

/-- C1: two `get_swapi_data` calls with identical `(kind, id, search, page)`
and `use_cache = true`, the first of which succeeded, issue at most one
network call in total: the second call is a cache hit that returns the
first call's value without consulting the network (each call consults the
network at most once by construction, and the second does not at all). -/
theorem claim_c1_cache_idempotent {rt : SWAPIResource} {rid : Option Int}
    {search : Option String} {page : Option Int} {ru1 ru2 : Bool} {t1 t2 : Int}
    {net1 net2 : String → Int → HttpOutcome} {c : Cache} {v : Json}
    (hsucc : (get_swapi_data rt rid search page ru1 true t1 net1 c).outcome = .ok v) :
    (get_swapi_data rt rid search page ru2 true t2 net2
        (get_swapi_data rt rid search page ru1 true t1 net1 c).cache).outcome = .ok v
    ∧ (get_swapi_data rt rid search page ru2 true t2 net2
        (get_swapi_data rt rid search page ru1 true t1 net1 c).cache).networkCalled = false := by
  have hv := validate_ok_of_fetch_ok hsucc
  have hkey := fetch_ok_cache_lookup hsucc
  rw [fetch_cache_hit hv hkey]
  exact ⟨rfl, rfl⟩

/-- Witness for C1 at a concrete input: fetching person 1 twice with
caching on; the second call returns the first body and stays offline. -/
theorem claim_c1_cache_idempotent_witness :
    (get_swapi_data .people (some 1) none none true true 7 (fun _ _ => .timeout)
        (get_swapi_data .people (some 1) none none false true 10
          (fun _ _ => .ok (.ok (Json.obj [("name", Json.str "Luke Skywalker")])))
          Cache.empty).cache).outcome
      = .ok (Json.obj [("name", Json.str "Luke Skywalker")])
    ∧ (get_swapi_data .people (some 1) none none true true 7 (fun _ _ => .timeout)
        (get_swapi_data .people (some 1) none none false true 10
          (fun _ _ => .ok (.ok (Json.obj [("name", Json.str "Luke Skywalker")])))
          Cache.empty).cache).networkCalled = false :=
  claim_c1_cache_idempotent rfl

lemma validate_id_nonpos {i : Int} {search : Option String} {page : Option Int}
    (h : i ≤ 0) :
    validate_inputs (some i) search page
      = .error (.valueError "resource_id must be positive") := by
  simp [validate_inputs, h]

lemma validate_page_nonpos {rid : Option Int} {search : Option String} {p : Int}
    (hid : ∀ i, rid = some i → 0 < i) (h : p ≤ 0) :
    validate_inputs rid search (some p)
      = .error (.valueError "page must be positive") := by
  cases rid with
  | none => simp [validate_inputs, h]
  | some i =>
    have := hid i rfl
    simp [validate_inputs, h, not_le.mpr this]

lemma validate_both_id_search {rid : Option Int} {search : Option String}
    {page : Option Int}
    (hid : ∀ i, rid = some i → 0 < i) (hpage : ∀ p, page = some p → 0 < p)
    (hs : rid.isSome = true) (hsearch : search.isSome = true) :
    validate_inputs rid search page
      = .error (.valueError "Cannot specify both resource_id and search") := by
  cases rid with
  | none => simp at hs
  | some i =>
    have hi := hid i rfl
    cases page with
    | none => simp [validate_inputs, not_le.mpr hi, hsearch]
    | some p =>
      have hp := hpage p rfl
      simp [validate_inputs, not_le.mpr hi, not_le.mpr hp, hsearch]

/-- C2 counterexample: the claim demands the exact message
`"resource id must be positive"`, but the code raises
`ValueError("resource_id must be positive")` (underscored, as its own test
suite asserts); likewise the claim's `"cannot specify both id and search"`
differs from the code's `"Cannot specify both resource_id and search"`. -/
theorem claim_c2_counterexample :
    (get_swapi_data .people (some 0) none none false true 10
        (fun _ _ => .timeout) Cache.empty).outcome
      = .error (.valueError "resource_id must be positive")
    ∧ "resource_id must be positive" ≠ "resource id must be positive"
    ∧ (get_swapi_data .people (some 1) (some "Luke") none false true 10
        (fun _ _ => .timeout) Cache.empty).outcome
      = .error (.valueError "Cannot specify both resource_id and search")
    ∧ "Cannot specify both resource_id and search"
        ≠ "cannot specify both id and search" :=
  ⟨rfl, by decide, rfl, by decide⟩

/-- C2 amended: a present `id ≤ 0` fails with
`ValueError("resource_id must be positive")`; else a present `page ≤ 0`
fails with `ValueError("page must be positive")`; else `id` and `search`
both present fail with
`ValueError("Cannot specify both resource_id and search")` — each before
any network access and leaving the cache untouched. -/
theorem claim_c2_amended_messages :
    (∀ (rt : SWAPIResource) (rid : Option Int) (search : Option String)
        (page : Option Int) (ru uc : Bool) (t : Int)
        (net : String → Int → HttpOutcome) (c : Cache) (i : Int),
      rid = some i → i ≤ 0 →
      get_swapi_data rt rid search page ru uc t net c
        = ⟨.error (.valueError "resource_id must be positive"), c, false⟩)
    ∧ (∀ (rt : SWAPIResource) (rid : Option Int) (search : Option String)
        (page : Option Int) (ru uc : Bool) (t : Int)
        (net : String → Int → HttpOutcome) (c : Cache) (p : Int),
      (∀ i, rid = some i → 0 < i) → page = some p → p ≤ 0 →
      get_swapi_data rt rid search page ru uc t net c
        = ⟨.error (.valueError "page must be positive"), c, false⟩)
    ∧ (∀ (rt : SWAPIResource) (rid : Option Int) (search : Option String)
        (page : Option Int) (ru uc : Bool) (t : Int)
        (net : String → Int → HttpOutcome) (c : Cache),
      (∀ i, rid = some i → 0 < i) → (∀ p, page = some p → 0 < p) →
      rid.isSome = true → search.isSome = true →
      get_swapi_data rt rid search page ru uc t net c
        = ⟨.error (.valueError "Cannot specify both resource_id and search"), c, false⟩) := by
  refine ⟨?_, ?_, ?_⟩
  · intro rt rid search page ru uc t net c i hrid hi
    subst hrid
    exact fetch_validate_error (validate_id_nonpos hi)
  · intro rt rid search page ru uc t net c p hid hpage hp
    subst hpage
    exact fetch_validate_error (validate_page_nonpos hid hp)
  · intro rt rid search page ru uc t net c hid hpage hs hsearch
    exact fetch_validate_error (validate_both_id_search hid hpage hs hsearch)

/-- Witness for the amended C2 at concrete inputs: `id = 0`, `page = -1`,
and `id = 1` with `search = "Luke"`, each returning the code's exact
message with no network access. -/
theorem claim_c2_amended_messages_witness :
    get_swapi_data .people (some 0) none none false true 10
        (fun _ _ => .timeout) Cache.empty
      = ⟨.error (.valueError "resource_id must be positive"), Cache.empty, false⟩
    ∧ get_swapi_data .planets none none (some (-1)) false true 10
        (fun _ _ => .timeout) Cache.empty
      = ⟨.error (.valueError "page must be positive"), Cache.empty, false⟩
    ∧ get_swapi_data .people (some 1) (some "Luke") none false true 10
        (fun _ _ => .timeout) Cache.empty
      = ⟨.error (.valueError "Cannot specify both resource_id and search"), Cache.empty, false⟩ :=
  ⟨claim_c2_amended_messages.1 .people (some 0) none none false true 10
      (fun _ _ => .timeout) Cache.empty 0 rfl (by decide),
   claim_c2_amended_messages.2.1 .planets none none (some (-1)) false true 10
      (fun _ _ => .timeout) Cache.empty (-1)
      (fun i h => Option.noConfusion h) rfl (by decide),
   claim_c2_amended_messages.2.2 .people (some 1) (some "Luke") none false true 10
      (fun _ _ => .timeout) Cache.empty
      (fun i h => by cases h; decide) (fun p h => Option.noConfusion h) rfl rfl⟩

/-- C3: on a cache miss that reaches the network, each failure kind maps to
the single domain error `SWAPIError` with the classified message:
transport timeout, HTTP 404, other HTTP error status, other transport
failure, and JSON-parse failure. -/
theorem claim_c3_error_classification (rt : SWAPIResource) (rid : Option Int)
    (search : Option String) (page : Option Int) (ru uc : Bool) (t : Int) (c : Cache)
    (hval : validate_inputs rid search page = .ok ())
    (hmiss : (if uc = true then Cache.lookup c (build_cache_key rt rid search page)
        else none) = none) :
    ((get_swapi_data rt rid search page ru uc t (fun _ _ => .timeout) c).outcome
      = .error (.swapiError "Request timeout"))
    ∧ (∀ detail, (get_swapi_data rt rid search page ru uc t
        (fun _ _ => .httpError 404 detail) c).outcome
      = .error (.swapiError "Resource not found"))
    ∧ (∀ status detail, status ≠ 404 →
        (get_swapi_data rt rid search page ru uc t
          (fun _ _ => .httpError status detail) c).outcome
        = .error (.swapiError ("Server error: " ++ detail)))
    ∧ (∀ detail, (get_swapi_data rt rid search page ru uc t
        (fun _ _ => .requestError detail) c).outcome
      = .error (.swapiError ("Network error: " ++ detail)))
    ∧ (∀ detail, (get_swapi_data rt rid search page ru uc t
        (fun _ _ => .ok (.error detail)) c).outcome
      = .error (.swapiError ("Failed to parse response: " ++ detail))) := by
  refine ⟨?_, ?_, ?_, ?_, ?_⟩
  · rw [fetch_miss_timeout hval hmiss rfl]
  · intro detail
    rw [fetch_miss_http hval hmiss rfl]
    simp
  · intro status detail hs
    rw [fetch_miss_http hval hmiss rfl]
    simp [hs]
  · intro detail
    rw [fetch_miss_reqerr hval hmiss rfl]
  · intro detail
    rw [fetch_miss_parsefail hval hmiss rfl]

/-- Witness for C3 at a concrete input (people, id 1, empty cache): all
five failure kinds classified as stated. -/
theorem claim_c3_error_classification_witness :
    ((get_swapi_data .people (some 1) none none false true 10
        (fun _ _ => .timeout) Cache.empty).outcome
      = .error (.swapiError "Request timeout"))
    ∧ ((get_swapi_data .people (some 1) none none false true 10
        (fun _ _ => .httpError 404 "not found") Cache.empty).outcome
      = .error (.swapiError "Resource not found"))
    ∧ ((get_swapi_data .people (some 1) none none false true 10
        (fun _ _ => .httpError 500 "boom") Cache.empty).outcome
      = .error (.swapiError ("Server error: " ++ "boom")))
    ∧ ((get_swapi_data .people (some 1) none none false true 10
        (fun _ _ => .requestError "dns") Cache.empty).outcome
      = .error (.swapiError ("Network error: " ++ "dns")))
    ∧ ((get_swapi_data .people (some 1) none none false true 10
        (fun _ _ => .ok (.error "bad json")) Cache.empty).outcome
      = .error (.swapiError ("Failed to parse response: " ++ "bad json"))) := by
  have h := claim_c3_error_classification .people (some 1) none none false true 10
    Cache.empty rfl rfl
  exact ⟨h.1, h.2.1 "not found", h.2.2.1 500 "boom" (by decide), h.2.2.2.1 "dns",
    h.2.2.2.2 "bad json"⟩

lemma validate_ok_id_pos {i : Int} {search : Option String} {page : Option Int}
    (hv : validate_inputs (some i) search page = .ok ()) : 0 < i := by
  by_contra hneg
  rw [not_lt] at hneg
  rw [validate_id_nonpos hneg] at hv
  simp at hv

/-- C4: on a call that reaches the network and gets a parsed body, the
returned value is the body itself when `id` is set, and the body's
`results` field (defaulting to the empty sequence when absent) when `id`
is unset and the body is an object. -/
theorem claim_c4_result_shape (rt : SWAPIResource) (rid : Option Int)
    (search : Option String) (page : Option Int) (ru uc : Bool) (t : Int)
    (c : Cache) (net : String → Int → HttpOutcome) (body : Json)
    (hval : validate_inputs rid search page = .ok ())
    (hmiss : (if uc = true then Cache.lookup c (build_cache_key rt rid search page)
        else none) = none)
    (hnet : net (build_url rt rid search page) t = .ok (.ok body)) :
    (∀ i, rid = some i →
      (get_swapi_data rt rid search page ru uc t net c).outcome = .ok body)
    ∧ (rid = none → ∀ fields, body = .obj fields →
      (get_swapi_data rt rid search page ru uc t net c).outcome
        = .ok (jsonGet fields "results" (.arr [])))
    ∧ (∀ fields, List.lookup "results" fields = none →
      jsonGet fields "results" (.arr []) = .arr []) := by
  refine ⟨?_, ?_, ?_⟩
  · intro i hrid
    subst hrid
    have hi := validate_ok_id_pos hval
    have hid : optIntTruthy (some i) = true := by
      simp [optIntTruthy]
      omega
    rw [fetch_miss_ok_id hval hmiss hnet hid]
  · intro hrid fields hbody
    subst hrid hbody
    rw [fetch_miss_ok_obj hval hmiss hnet rfl]
  · intro fields habsent
    simp [jsonGet, habsent]

/-- Witness for C4 at concrete inputs: an id-request returns the exact
record; a search-request returns exactly the `results` sequence; a missing
`results` field yields the empty sequence. -/
theorem claim_c4_result_shape_witness :
    ((get_swapi_data .people (some 1) none none false true 10
        (fun _ _ => .ok (.ok (Json.obj [("name", Json.str "Luke Skywalker"),
          ("height", Json.str "172")]))) Cache.empty).outcome
      = .ok (Json.obj [("name", Json.str "Luke Skywalker"), ("height", Json.str "172")]))
    ∧ ((get_swapi_data .planets none (some "Tatooine") none false true 10
        (fun _ _ => .ok (.ok (Json.obj [("count", Json.num 1),
          ("results", Json.arr [Json.obj [("name", Json.str "Tatooine")]])])))
        Cache.empty).outcome
      = .ok (jsonGet [("count", Json.num 1),
          ("results", Json.arr [Json.obj [("name", Json.str "Tatooine")]])]
          "results" (Json.arr [])))
    ∧ jsonGet [("count", Json.num 0)] "results" (Json.arr []) = Json.arr [] := by
  refine ⟨?_, ?_, ?_⟩
  · exact (claim_c4_result_shape .people (some 1) none none false true 10
      Cache.empty _ _ rfl rfl rfl).1 1 rfl
  · exact (claim_c4_result_shape .planets none (some "Tatooine") none false true 10
      Cache.empty _ _ rfl rfl rfl).2.1 rfl _ rfl
  · exact (claim_c4_result_shape .people (some 1) none none false true 10
      Cache.empty (fun _ _ => .ok (.ok Json.null)) Json.null rfl rfl rfl).2.2
      [("count", Json.num 0)] rfl

lemma append_left_fold (a b ab : String) (h : a ++ b = ab) (c : String) :
    a ++ (b ++ c) = ab ++ c := by
  rw [← String.append_assoc, h]

/-- C5: for every valid request (present id positive, present search
non-empty, present page positive — the spec's data-model invariants), the
constructed URL is `{base}/{kind}/{id}/` when id is set, and otherwise
`{base}/{kind}/` with `search=`/`page=` appended in that order for the
present parameters, `&`-joined, with no query string when neither is
present. -/
theorem claim_c5_url_construction :
    (∀ (rt : SWAPIResource) (i : Int) (search : Option String) (page : Option Int),
      0 < i → build_url rt (some i) search page
        = "https://swapi.dev/api/" ++ rt.value ++ "/" ++ toString i ++ "/")
    ∧ (∀ rt : SWAPIResource, build_url rt none none none
        = "https://swapi.dev/api/" ++ rt.value ++ "/")
    ∧ (∀ (rt : SWAPIResource) (s : String), s ≠ "" → build_url rt none (some s) none
        = "https://swapi.dev/api/" ++ rt.value ++ "/?search=" ++ s)
    ∧ (∀ (rt : SWAPIResource) (p : Int), 0 < p → build_url rt none none (some p)
        = "https://swapi.dev/api/" ++ rt.value ++ "/?page=" ++ toString p)
    ∧ (∀ (rt : SWAPIResource) (s : String) (p : Int), s ≠ "" → 0 < p →
        build_url rt none (some s) (some p)
        = "https://swapi.dev/api/" ++ rt.value ++ "/?search=" ++ s ++ "&page=" ++ toString p) := by
  refine ⟨?_, ?_, ?_, ?_, ?_⟩
  · intro rt i search page hi
    simp [build_url, hi.ne', String.append_assoc]
  · intro rt
    simp [build_url, build_url.buildListUrl, String.intercalate, String.intercalate.go]
  · intro rt s hs
    simp [build_url, build_url.buildListUrl, hs, String.intercalate,
      String.intercalate.go, String.append_assoc]
    rw [append_left_fold "/?" "search=" "/?search=" rfl s]
  · intro rt p hp
    simp [build_url, build_url.buildListUrl, hp.ne', String.intercalate,
      String.intercalate.go, String.append_assoc]
    rw [append_left_fold "/?" "page=" "/?page=" rfl (toString p)]
  · intro rt s p hs hp
    simp [build_url, build_url.buildListUrl, hs, hp.ne', String.intercalate,
      String.intercalate.go, String.append_assoc]
    rw [append_left_fold "&" "page=" "&page=" rfl (toString p),
      append_left_fold "/?" "search=" "/?search=" rfl]

/-- Witness for C5 at concrete inputs, one per URL shape. -/
theorem claim_c5_url_construction_witness :
    build_url .people (some 1) none none
      = "https://swapi.dev/api/" ++ SWAPIResource.people.value ++ "/" ++ toString (1 : Int) ++ "/"
    ∧ build_url .films none none none
      = "https://swapi.dev/api/" ++ SWAPIResource.films.value ++ "/"
    ∧ build_url .planets none (some "Tatooine") none
      = "https://swapi.dev/api/" ++ SWAPIResource.planets.value ++ "/?search=" ++ "Tatooine"
    ∧ build_url .people none none (some 2)
      = "https://swapi.dev/api/" ++ SWAPIResource.people.value ++ "/?page=" ++ toString (2 : Int)
    ∧ build_url .people none (some "a") (some 2)
      = "https://swapi.dev/api/" ++ SWAPIResource.people.value ++ "/?search=" ++ "a"
          ++ "&page=" ++ toString (2 : Int) :=
  ⟨claim_c5_url_construction.1 .people 1 none none (by decide),
   claim_c5_url_construction.2.1 .films,
   claim_c5_url_construction.2.2.1 .planets "Tatooine" (by decide),
   claim_c5_url_construction.2.2.2.1 .people 2 (by decide),
   claim_c5_url_construction.2.2.2.2 .people "a" 2 (by decide) (by decide)⟩

/-- C6 counterexample: the cache key does not uniquely identify the
addressable target — a search string containing the `|` separator collides
with a search-plus-page request: both
`(people, search="x|page:2")` and `(people, search="x", page=2)` derive the
key `"people|search:x|page:2"` although their search and page fields
differ. The claim's "equal iff all of kind/id/search/page equal" is
therefore false. -/
theorem claim_c6_counterexample :
    requestCacheKey ⟨.people, none, some "x|page:2", none, true, 10⟩
      = requestCacheKey ⟨.people, none, some "x", some 2, true, 10⟩
    ∧ (some "x|page:2" : Option String) ≠ some "x"
    ∧ (none : Option Int) ≠ some 2 :=
  ⟨rfl, by decide, by decide⟩

/-- C6 amended: equal kind/id/search/page always yield equal cache keys,
regardless of `useCache` and `timeoutSeconds` (the forward direction of
the claim; injectivity fails, see the counterexample). -/
theorem claim_c6_amended_key_congruence (r1 r2 : QueryRequest)
    (hk : r1.kind = r2.kind) (hi : r1.id = r2.id)
    (hs : r1.search = r2.search) (hp : r1.page = r2.page) :
    requestCacheKey r1 = requestCacheKey r2 := by
  cases r1
  cases r2
  simp only at hk hi hs hp
  simp only [requestCacheKey, hk, hi, hs, hp]

/-- Witness for the amended C6: two requests identical in the four
addressing fields but differing in `useCache` and `timeoutSeconds` share a
cache key. -/
theorem claim_c6_amended_key_congruence_witness :
    requestCacheKey ⟨.people, some 1, none, none, true, 10⟩
      = requestCacheKey ⟨.people, some 1, none, none, false, 3⟩ :=
  claim_c6_amended_key_congruence _ _ rfl rfl rfl rfl

/-- C10 (implicit): with no id, an empty search string is dropped
everywhere — `search = some ""` and `search = none` derive the same cache
key, the same URL, and the same full `get_swapi_data` result for every
kind, page, flags, timeout, network and cache (so the two calls share one
cache entry and one request target). -/
theorem claim_c10_empty_search_equiv :
    ∀ (rt : SWAPIResource) (page : Option Int) (ru uc : Bool) (t : Int)
      (net : String → Int → HttpOutcome) (c : Cache),
    build_cache_key rt none (some "") page = build_cache_key rt none none page
    ∧ build_url rt none (some "") page = build_url rt none none page
    ∧ get_swapi_data rt none (some "") page ru uc t net c
        = get_swapi_data rt none none page ru uc t net c :=
  fun _ _ _ _ _ _ _ => ⟨rfl, rfl, rfl⟩

/-! ## Helper lemmas about the discovery collector -/

lemma collectLoop_textEvents (ds : List (String × String)) (acc : List String) :
    (collectLoop (textEvents ds ++ [.timeoutEvt]) acc).1 = .ok (ds.foldl stepAddr acc) := by
  induction ds generalizing acc with
  | nil => rfl
  | cons hd tl ih =>
    obtain ⟨s, a⟩ := hd
    simp only [textEvents, List.map_cons, List.cons_append, collectLoop, List.foldl_cons]
    exact ih _

lemma collectLoop_text_then_exn (ds : List (String × String)) (msg : String)
    (rest : List RecvEvent) (acc : List String) :
    (collectLoop (textEvents ds ++ .exn msg :: rest) acc).1 = .error (.socketError msg) := by
  induction ds generalizing acc with
  | nil => rfl
  | cons hd tl ih =>
    obtain ⟨s, a⟩ := hd
    simp only [textEvents, List.map_cons, List.cons_append, collectLoop]
    exact ih _

lemma collectLoop_text_then_undecodable (ds : List (String × String)) (addr : String)
    (rest : List RecvEvent) (acc : List String) :
    (collectLoop (textEvents ds ++ .datagram .undecodable addr :: rest) acc).1
      = .error .unicodeDecodeError := by
  induction ds generalizing acc with
  | nil => rfl
  | cons hd tl ih =>
    obtain ⟨s, a⟩ := hd
    simp only [textEvents, List.map_cons, List.cons_append, collectLoop]
    exact ih _

lemma foldl_stepAddr_nodup (ds : List (String × String)) (acc : List String)
    (h : acc.Nodup) : (ds.foldl stepAddr acc).Nodup := by
  induction ds generalizing acc with
  | nil => simpa
  | cons hd tl ih =>
    simp only [List.foldl_cons]
    apply ih
    by_cases hc : containsMarker hd.1 ∧ hd.2 ∉ acc
    · rw [stepAddr, if_pos hc]
      simp [List.nodup_append, h, hc.2]
    · rw [stepAddr, if_neg hc]
      exact h

lemma foldl_stepAddr_mem (ds : List (String × String)) (acc : List String)
    (x : String) :
    x ∈ ds.foldl stepAddr acc
      ↔ x ∈ acc ∨ ∃ s, (s, x) ∈ ds ∧ containsMarker s = true := by
  induction ds generalizing acc with
  | nil => simp
  | cons hd tl ih =>
    obtain ⟨s, a⟩ := hd
    simp only [List.foldl_cons, ih, List.mem_cons, Prod.mk.injEq]
    by_cases hc : containsMarker s ∧ a ∉ acc
    · rw [stepAddr, if_pos hc]
      simp only [List.mem_append, List.mem_singleton]
      constructor
      · rintro (⟨hx | hx⟩ | ⟨s', hs', hm⟩)
        · exact Or.inl hx
        · exact Or.inr ⟨s, Or.inl ⟨rfl, hx⟩, hc.1⟩
        · exact Or.inr ⟨s', Or.inr hs', hm⟩
      · rintro (hx | ⟨s', ⟨rfl, rfl⟩ | hs', hm⟩)
        · exact Or.inl (Or.inl hx)
        · exact Or.inl (Or.inr rfl)
        · exact Or.inr ⟨s', hs', hm⟩
    · rw [stepAddr, if_neg hc]
      push_neg at hc
      constructor
      · rintro (hx | ⟨s', hs', hm⟩)
        · exact Or.inl hx
        · exact Or.inr ⟨s', Or.inr hs', hm⟩
      · rintro (hx | ⟨s', ⟨rfl, rfl⟩ | hs', hm⟩)
        · exact Or.inl hx
        · exact Or.inl (hc hm)
        · exact Or.inr ⟨s', hs', hm⟩

lemma foldl_stepAddr_sublist (ds : List (String × String)) (acc : List String) :
    ∃ t, ds.foldl stepAddr acc = acc ++ t
      ∧ t.Sublist ((ds.filter fun p => containsMarker p.1).map Prod.snd) := by
  induction ds generalizing acc with
  | nil => exact ⟨[], by simp, by simp⟩
  | cons hd tl ih =>
    obtain ⟨s, a⟩ := hd
    by_cases hc : containsMarker s ∧ a ∉ acc
    · obtain ⟨t, ht, hsub⟩ := ih (acc ++ [a])
      refine ⟨a :: t, ?_, ?_⟩
      · simp only [List.foldl_cons]
        rw [stepAddr, if_pos hc, ht]
        simp
      · rw [List.filter_cons_of_pos (by simpa using hc.1), List.map_cons]
        exact hsub.cons₂ a
    · obtain ⟨t, ht, hsub⟩ := ih acc
      refine ⟨t, ?_, ?_⟩
      · simp only [List.foldl_cons]
        rw [stepAddr, if_neg hc]
        exact ht
      · by_cases hm : containsMarker s
        · rw [List.filter_cons_of_pos (by simpa using hm), List.map_cons]
          exact hsub.cons a
        · rw [List.filter_cons_of_neg (by simpa using hm)]
          exact hsub

/-- Collecting over the marker-filtered sender sequence is exactly
first-occurrence deduplication: `stepAddr` keeps an address only when the
payload carries the marker and the address has not been seen, which is the
`firstSeen` fold over the filtered arrival-ordered senders. -/
lemma foldl_stepAddr_firstSeen (ds : List (String × String)) (acc : List String) :
    ds.foldl stepAddr acc
      = ((ds.filter fun p => containsMarker p.1).map Prod.snd).foldl
          (fun seen addr => if addr ∈ seen then seen else seen ++ [addr]) acc := by
  induction ds generalizing acc with
  | nil => rfl
  | cons hd tl ih =>
    obtain ⟨s, a⟩ := hd
    by_cases hm : containsMarker s
    · rw [List.filter_cons_of_pos (by simpa using hm), List.map_cons]
      simp only [List.foldl_cons]
      rw [ih]
      congr 1
      rw [stepAddr]
      by_cases ha : a ∈ acc
      · rw [if_neg (by simp [ha]), if_pos ha]
      · rw [if_pos ⟨hm, ha⟩, if_neg ha]
    · rw [List.filter_cons_of_neg (by simpa using hm)]
      simp only [List.foldl_cons]
      rw [stepAddr, if_neg (by simp [hm])]
      exact ih acc

/-- C7: for every run over text datagrams ending in a read timeout, the
returned list is exactly `firstSeen` of the marker-carrying senders in
arrival order — each address sits at the position of its first marker
reply, so the list is duplicate-free and in first-seen arrival order — it
contains exactly the senders whose payload contains `roku:ecp`, and it is
the empty list — not an error — when no replies arrive before the
timeout. -/
theorem claim_c7_discovery_guarantees :
    ∀ ds : List (String × String),
    ∃ ips,
      (discover_roku_devices none (textEvents ds ++ [.timeoutEvt])).result = .ok ips
      ∧ ips = firstSeen ((ds.filter fun p => containsMarker p.1).map Prod.snd)
      ∧ ips.Nodup
      ∧ (∀ a, a ∈ ips ↔ ∃ s, (s, a) ∈ ds ∧ containsMarker s = true)
      ∧ ips.Sublist ((ds.filter fun p => containsMarker p.1).map Prod.snd)
      ∧ (discover_roku_devices none [.timeoutEvt]).result = .ok [] := by
  intro ds
  refine ⟨ds.foldl stepAddr [], ?_, foldl_stepAddr_firstSeen ds [],
    foldl_stepAddr_nodup ds [] (by simp), ?_, ?_, rfl⟩
  · simp only [discover_roku_devices]
    exact collectLoop_textEvents ds []
  · intro a
    rw [foldl_stepAddr_mem]
    simp
  · obtain ⟨t, ht, hsub⟩ := foldl_stepAddr_sublist ds []
    rw [ht]
    simpa using hsub

/-- C8: on every exit path of `discover_roku_devices` the last socket
operation is `close` (the `finally` releases the socket before control
leaves), and non-timeout exceptions — a send failure, a receive exception,
a payload that fails to decode — are propagated to the caller unmodified. -/
theorem claim_c8_socket_release :
    (∀ (sendErr : Option PyExn) (events : List RecvEvent),
      (discover_roku_devices sendErr events).trace.getLast? = some .close)
    ∧ (∀ (e : PyExn) (events : List RecvEvent),
      (discover_roku_devices (some e) events).result = .error e)
    ∧ (∀ (ds : List (String × String)) (msg : String) (rest : List RecvEvent),
      (discover_roku_devices none (textEvents ds ++ .exn msg :: rest)).result
        = .error (.socketError msg))
    ∧ (∀ (ds : List (String × String)) (addr : String) (rest : List RecvEvent),
      (discover_roku_devices none (textEvents ds ++ .datagram .undecodable addr :: rest)).result
        = .error .unicodeDecodeError) := by
  refine ⟨?_, ?_, ?_, ?_⟩
  · intro sendErr events
    cases sendErr with
    | some e => rfl
    | none =>
      simp only [discover_roku_devices]
      exact List.getLast?_concat _
  · intro e events
    rfl
  · intro ds msg rest
    simp only [discover_roku_devices]
    exact collectLoop_text_then_exn ds msg rest []
  · intro ds addr rest
    simp only [discover_roku_devices]
    exact collectLoop_text_then_undecodable ds addr rest []

/-- C9 counterexample: a datagram whose payload is not decodable as text
is not silently ignored — it makes `discover_roku_devices` raise
(`UnicodeDecodeError` escapes the loop, which catches only
`socket.timeout`), so the run returns no list at all. -/
theorem claim_c9_counterexample :
    (discover_roku_devices none [.datagram .undecodable "192.168.1.50"]).result
      = .error .unicodeDecodeError
    ∧ ¬∃ ips, (discover_roku_devices none
        [.datagram .undecodable "192.168.1.50"]).result = .ok ips :=
  ⟨rfl, fun ⟨_, h⟩ => nomatch h⟩

/-- C9 amended: a datagram that decodes but lacks the `roku:ecp` marker is
silently ignored — the loop continues on the remaining events with the
accumulator unchanged and raises nothing — while a payload that fails to
decode as text raises `UnicodeDecodeError`. -/
theorem claim_c9_amended_ignored_payloads :
    (∀ (s addr : String) (rest : List RecvEvent) (acc : List String),
      containsMarker s = false →
      collectLoop (.datagram (.text s) addr :: rest) acc
        = ((collectLoop rest acc).1, .recvfrom :: (collectLoop rest acc).2))
    ∧ (∀ (addr : String) (rest : List RecvEvent) (acc : List String),
      (collectLoop (.datagram .undecodable addr :: rest) acc).1
        = .error .unicodeDecodeError) := by
  constructor
  · intro s addr rest acc hm
    simp only [collectLoop]
    rw [if_neg (by simp [hm])]
  · intro addr rest acc
    rfl

/-- Witness for the amended C9: a decodable non-Roku SSDP reply is skipped
with the loop continuing, and an undecodable one raises. -/
theorem claim_c9_amended_ignored_payloads_witness :
    collectLoop [.datagram (.text "HTTP/1.1 200 OK\r\nST: upnp:rootdevice\r\n") "192.168.1.9"] []
      = ((collectLoop [] []).1, .recvfrom :: (collectLoop [] []).2)
    ∧ (collectLoop [.datagram .undecodable "192.168.1.9"] []).1
      = .error .unicodeDecodeError :=
  ⟨claim_c9_amended_ignored_payloads.1 "HTTP/1.1 200 OK\r\nST: upnp:rootdevice\r\n"
      "192.168.1.9" [] [] (by decide),
   claim_c9_amended_ignored_payloads.2 "192.168.1.9" [] []⟩
